import Mathlib

/-!
Verification of the resilient dispatch core of the browserless service.

Shallow embedding of:
- `src/utils/CircuitBreaker.ts` (circuit breaker state machine),
- `src/services/BrowserPool` (worker-session pool, in `src/services/MetricsService.ts`
  second compilation unit),
- `src/utils/MemoryManager.ts` and `src/config.ts` (memory classification),
- `src/services/HealthCheckService.ts` (composite health verdict),
- the LoadBalancer unit (backend registry, selection strategies, dispatch,
  health probes).

Conventions: JavaScript timestamps (`Date.now()`) are modelled as `Nat`
milliseconds; a single call to an async method is modelled as taking place at
one instant `now` (the several `Date.now()` reads inside one call are
identified).  JavaScript floating-point arithmetic on usage ratios, weights
and scores is modelled over `ℚ` (exact rationals); division by zero yields 0
in `ℚ` where JavaScript would yield NaN, a corner that no registered backend
or memory sample reaches (`maxLoad = 10`, `heapTotal > 0`).
-/

namespace Browserless

/-! ### CircuitBreaker (src/utils/CircuitBreaker.ts) -/

/-- Options record, `CircuitBreakerOptions` (CircuitBreaker.ts lines 4-10). -/
structure CircuitBreakerOptions where
  failureThreshold : Nat
  successThreshold : Nat
  timeout : Nat
  halfOpenMaxCalls : Nat
  recoveryTimeout : Nat
deriving Repr, DecidableEq

/-- The three breaker modes (CircuitBreaker.ts lines 12-16). -/
inductive CircuitBreakerState where
  | CLOSED
  | OPEN
  | HALF_OPEN
deriving Repr, DecidableEq

/-- Mutable fields of class `CircuitBreaker` (CircuitBreaker.ts lines 19-24). -/
structure CircuitBreaker where
  state : CircuitBreakerState
  failureCount : Nat
  successCount : Nat
  lastFailureTime : Option Nat
  halfOpenCallCount : Nat
  nextAttempt : Nat
deriving Repr, DecidableEq

/-- The field initializers of a freshly constructed breaker at time `now`
(CircuitBreaker.ts lines 19-24: `nextAttempt = Date.now()`). -/
def CircuitBreaker.initial (now : Nat) : CircuitBreaker :=
  ⟨.CLOSED, 0, 0, none, 0, now⟩

/-- `onSuccess` (CircuitBreaker.ts lines 64-77). -/
def CircuitBreaker.onSuccess (opts : CircuitBreakerOptions) (cb : CircuitBreaker) :
    CircuitBreaker :=
  let cb1 := { cb with failureCount := 0 }
  if cb1.state = .HALF_OPEN then
    let cb2 := { cb1 with successCount := cb1.successCount + 1 }
    if opts.successThreshold ≤ cb2.successCount then
      { cb2 with state := .CLOSED, successCount := 0, halfOpenCallCount := 0 }
    else
      cb2
  else
    cb1

/-- `onFailure` at time `now` (CircuitBreaker.ts lines 79-97). -/
def CircuitBreaker.onFailure (opts : CircuitBreakerOptions) (cb : CircuitBreaker)
    (now : Nat) : CircuitBreaker :=
  let cb1 := { cb with failureCount := cb.failureCount + 1, lastFailureTime := some now }
  if cb1.state = .HALF_OPEN then
    { cb1 with state := .OPEN, nextAttempt := now + opts.recoveryTimeout }
  else if opts.failureThreshold ≤ cb1.failureCount then
    { cb1 with state := .OPEN, nextAttempt := now + opts.recoveryTimeout }
  else
    cb1

/-- Outcome of one `execute` call: the two rejection paths throw before the
wrapped operation runs; `success`/`failure` mean the operation was invoked and
settled (a timeout of the race at line 48-53 counts as `failure`). -/
inductive ExecResult where
  | rejectedOpen
  | rejectedHalfOpenLimit
  | success
  | failure
deriving Repr, DecidableEq

/-- `execute` (CircuitBreaker.ts lines 30-62) at time `now`.  The wrapped
operation is abstracted by the oracle `opSucceeds : Bool`: `true` means it
settled successfully within `timeout`, `false` that it failed or timed out.
Returns the call outcome and the post-state of the breaker. -/
def CircuitBreaker.execute (opts : CircuitBreakerOptions) (cb : CircuitBreaker)
    (now : Nat) (opSucceeds : Bool) : ExecResult × CircuitBreaker :=
  if cb.state = .OPEN ∧ now < cb.nextAttempt then
    (.rejectedOpen, cb)
  else
    let cb1 := if cb.state = .OPEN then
        { cb with state := .HALF_OPEN, halfOpenCallCount := 0 }
      else cb
    if cb1.state = .HALF_OPEN ∧ opts.halfOpenMaxCalls ≤ cb1.halfOpenCallCount then
      (.rejectedHalfOpenLimit, cb1)
    else
      let cb2 := if cb1.state = .HALF_OPEN then
          { cb1 with halfOpenCallCount := cb1.halfOpenCallCount + 1 }
        else cb1
      if opSucceeds then
        (.success, CircuitBreaker.onSuccess opts cb2)
      else
        (.failure, CircuitBreaker.onFailure opts cb2 now)

/-- Folding a sequence of failing calls (each at its own timestamp) through
the breaker; the post-state after each call feeds the next. -/
def execFailures (opts : CircuitBreakerOptions) (cb : CircuitBreaker)
    (ts : List Nat) : CircuitBreaker :=
  ts.foldl (fun c t => (CircuitBreaker.execute opts c t false).2) cb

/-- The breaker options used throughout the service with default environment
(config.ts lines 135-141 and the LoadBalancer `addInstance` literal). -/
def optsDefault : CircuitBreakerOptions :=
  ⟨5, 3, 60000, 3, 120000⟩

/-- A concrete run: five failures at time 0 trip the default breaker. -/
def cbTripped : CircuitBreaker :=
  execFailures optsDefault (CircuitBreaker.initial 0) (List.replicate 5 0)

/-- One successful probe call at `nextAttempt` puts the tripped breaker in
HALF_OPEN with one recorded success. -/
def cbHalfOpenOneSuccess : CircuitBreaker :=
  (CircuitBreaker.execute optsDefault cbTripped 120000 true).2

example : cbTripped.state = .OPEN ∧ cbTripped.nextAttempt = 120000 := by decide

example : cbHalfOpenOneSuccess.state = .HALF_OPEN ∧
    cbHalfOpenOneSuccess.successCount = 1 := by decide

/-- In CLOSED state a call is always admitted and its outcome is decided by
the wrapped operation alone. -/
lemma execute_closed (opts : CircuitBreakerOptions) (cb : CircuitBreaker)
    (now : Nat) (b : Bool) (h : cb.state = .CLOSED) :
    CircuitBreaker.execute opts cb now b =
      if b then (.success, CircuitBreaker.onSuccess opts cb)
      else (.failure, CircuitBreaker.onFailure opts cb now) := by
  simp [CircuitBreaker.execute, h]

/-- In OPEN state before `nextAttempt` a call is rejected and the breaker is
unchanged, no matter what the operation would have done. -/
lemma execute_open_early (opts : CircuitBreakerOptions) (cb : CircuitBreaker)
    (now : Nat) (b : Bool) (hst : cb.state = .OPEN) (ht : now < cb.nextAttempt) :
    CircuitBreaker.execute opts cb now b = (.rejectedOpen, cb) := by
  simp [CircuitBreaker.execute, hst, ht]

/-- `onFailure` on a CLOSED breaker still below the threshold. -/
lemma onFailure_closed_below (opts : CircuitBreakerOptions) (cb : CircuitBreaker)
    (now : Nat) (hst : cb.state = .CLOSED)
    (hlt : cb.failureCount + 1 < opts.failureThreshold) :
    CircuitBreaker.onFailure opts cb now =
      { cb with failureCount := cb.failureCount + 1, lastFailureTime := some now } := by
  have hlt2 : ¬ opts.failureThreshold ≤ cb.failureCount + 1 := by omega
  simp [CircuitBreaker.onFailure, hst, hlt2]

/-- `onFailure` on a CLOSED breaker whose counter reaches the threshold. -/
lemma onFailure_closed_trips (opts : CircuitBreakerOptions) (cb : CircuitBreaker)
    (now : Nat) (hst : cb.state = .CLOSED)
    (hge : opts.failureThreshold ≤ cb.failureCount + 1) :
    CircuitBreaker.onFailure opts cb now =
      { cb with failureCount := cb.failureCount + 1, lastFailureTime := some now,
                state := .OPEN, nextAttempt := now + opts.recoveryTimeout } := by
  simp [CircuitBreaker.onFailure, hst, hge]

/-- Failing calls below the failure threshold keep the breaker CLOSED and
accumulate the failure counter. -/
lemma execFailures_stay_closed (opts : CircuitBreakerOptions) :
    ∀ (ts : List Nat) (cb : CircuitBreaker), cb.state = .CLOSED →
      cb.failureCount + ts.length < opts.failureThreshold →
      (execFailures opts cb ts).state = .CLOSED ∧
      (execFailures opts cb ts).failureCount = cb.failureCount + ts.length := by
  intro ts
  induction ts with
  | nil => intro cb h1 _; simpa [execFailures] using h1
  | cons t ts ih =>
    intro cb h1 h2
    simp only [List.length_cons] at h2
    have hlt2 : cb.failureCount + 1 < opts.failureThreshold := by omega
    have hstep : (CircuitBreaker.execute opts cb t false).2 =
        { cb with failureCount := cb.failureCount + 1, lastFailureTime := some t } := by
      rw [execute_closed opts cb t false h1]
      simp [onFailure_closed_below opts cb t h1 hlt2]
    have hrec := ih { cb with failureCount := cb.failureCount + 1, lastFailureTime := some t }
      (by simpa using h1) (by simp; omega)
    simp only [execFailures, List.foldl_cons] at hrec ⊢
    rw [hstep]
    refine ⟨hrec.1, ?_⟩
    rw [hrec.2]
    simp; omega

/-- The failing call that reaches the threshold trips the breaker to OPEN and
stamps `nextAttempt` from the time of that last failure. -/
lemma execFailures_trip (opts : CircuitBreakerOptions) (ts : List Nat) (t : Nat)
    (cb : CircuitBreaker) (hst : cb.state = .CLOSED)
    (hlen : cb.failureCount + ts.length + 1 = opts.failureThreshold) :
    (execFailures opts cb (ts ++ [t])).state = .OPEN ∧
    (execFailures opts cb (ts ++ [t])).nextAttempt = t + opts.recoveryTimeout := by
  have hmid := execFailures_stay_closed opts ts cb hst (by omega)
  have happ : execFailures opts cb (ts ++ [t]) =
      (CircuitBreaker.execute opts (execFailures opts cb ts) t false).2 := by
    simp [execFailures, List.foldl_append]
  rw [happ, execute_closed opts _ t false hmid.1]
  simp [onFailure_closed_trips opts _ t hmid.1 (by omega)]

/-- A HALF_OPEN call under the concurrency cap is admitted: the call counter
is bumped and the outcome follows the wrapped operation. -/
lemma execute_halfOpen_belowCap (opts : CircuitBreakerOptions) (cb : CircuitBreaker)
    (now : Nat) (b : Bool) (hst : cb.state = .HALF_OPEN)
    (hcap : cb.halfOpenCallCount < opts.halfOpenMaxCalls) :
    CircuitBreaker.execute opts cb now b =
      if b then
        (.success, CircuitBreaker.onSuccess opts
          { cb with halfOpenCallCount := cb.halfOpenCallCount + 1 })
      else
        (.failure, CircuitBreaker.onFailure opts
          { cb with halfOpenCallCount := cb.halfOpenCallCount + 1 } now) := by
  have hcap2 : ¬ opts.halfOpenMaxCalls ≤ cb.halfOpenCallCount := by omega
  simp [CircuitBreaker.execute, hst, hcap2]

/-- C1 (amended): in HALF_OPEN, a single admitted failing call yields outcome
`failure` and moves the breaker to OPEN with `nextAttempt = now +
recoveryTimeout`; the consecutive-success counter is carried over unchanged,
not reset to zero. -/
theorem c1_halfOpen_failure_reopens (opts : CircuitBreakerOptions)
    (cb : CircuitBreaker) (now : Nat) (hst : cb.state = .HALF_OPEN)
    (hcap : cb.halfOpenCallCount < opts.halfOpenMaxCalls) :
    (CircuitBreaker.execute opts cb now false).1 = .failure ∧
    (CircuitBreaker.execute opts cb now false).2.state = .OPEN ∧
    (CircuitBreaker.execute opts cb now false).2.nextAttempt =
      now + opts.recoveryTimeout ∧
    (CircuitBreaker.execute opts cb now false).2.successCount = cb.successCount := by
  rw [execute_halfOpen_belowCap opts cb now false hst hcap]
  simp [CircuitBreaker.onFailure, hst]

/-- Witness for C1 at the default options: a breaker brought to HALF_OPEN with
one recorded success, hit by one failing call. -/
theorem c1_halfOpen_failure_reopens_witness :
    cbHalfOpenOneSuccess.state = .HALF_OPEN ∧
    cbHalfOpenOneSuccess.halfOpenCallCount < optsDefault.halfOpenMaxCalls ∧
    ((CircuitBreaker.execute optsDefault cbHalfOpenOneSuccess 120001 false).1 = .failure ∧
     (CircuitBreaker.execute optsDefault cbHalfOpenOneSuccess 120001 false).2.state = .OPEN ∧
     (CircuitBreaker.execute optsDefault cbHalfOpenOneSuccess 120001 false).2.nextAttempt =
       120001 + optsDefault.recoveryTimeout ∧
     (CircuitBreaker.execute optsDefault cbHalfOpenOneSuccess 120001 false).2.successCount =
       cbHalfOpenOneSuccess.successCount) :=
  ⟨by decide, by decide,
   c1_halfOpen_failure_reopens optsDefault cbHalfOpenOneSuccess 120001
     (by decide) (by decide)⟩

/-- C1 counterexample to the claim as stated: the breaker reaches HALF_OPEN
with `successCount = 1`; a failing call does transition it to OPEN, but the
success counter stays at 1 instead of being reset to zero. -/
theorem c1_successCount_not_reset_counterexample :
    cbHalfOpenOneSuccess.state = .HALF_OPEN ∧
    cbHalfOpenOneSuccess.successCount = 1 ∧
    (CircuitBreaker.execute optsDefault cbHalfOpenOneSuccess 120001 false).1 = .failure ∧
    (CircuitBreaker.execute optsDefault cbHalfOpenOneSuccess 120001 false).2.state = .OPEN ∧
    ¬ (CircuitBreaker.execute optsDefault cbHalfOpenOneSuccess 120001 false).2.successCount
        = 0 := by
  decide

/-- C6: starting from a CLOSED breaker with a zero failure counter, a run of
exactly `failureThreshold` consecutive failing calls (no intervening success)
leaves the breaker OPEN with `nextAttempt` stamped `recoveryTimeout` after the
last failure, and every later call before `nextAttempt` is rejected with the
circuit-open outcome without invoking the wrapped operation (the result does
not depend on the operation oracle and the breaker is unchanged). -/
theorem c6_threshold_failures_open (opts : CircuitBreakerOptions)
    (cb : CircuitBreaker) (ts : List Nat) (t : Nat)
    (hst : cb.state = .CLOSED) (hfc : cb.failureCount = 0)
    (hlen : ts.length + 1 = opts.failureThreshold) :
    (execFailures opts cb (ts ++ [t])).state = .OPEN ∧
    (execFailures opts cb (ts ++ [t])).nextAttempt = t + opts.recoveryTimeout ∧
    ∀ (now : Nat) (b : Bool), now < t + opts.recoveryTimeout →
      CircuitBreaker.execute opts (execFailures opts cb (ts ++ [t])) now b =
        (.rejectedOpen, execFailures opts cb (ts ++ [t])) := by
  have htrip := execFailures_trip opts ts t cb hst (by omega)
  refine ⟨htrip.1, htrip.2, ?_⟩
  intro now b hnow
  exact execute_open_early opts _ now b htrip.1 (by rw [htrip.2]; exact hnow)

/-- Witness for C6 at the default options (`failureThreshold = 5`): five
failures at time 0 trip a fresh breaker; a call at 119999 < 120000 is
rejected unchanged. -/
theorem c6_threshold_failures_open_witness :
    (CircuitBreaker.initial 0).state = .CLOSED ∧
    (CircuitBreaker.initial 0).failureCount = 0 ∧
    [0, 0, 0, 0].length + 1 = optsDefault.failureThreshold ∧
    (execFailures optsDefault (CircuitBreaker.initial 0) ([0, 0, 0, 0] ++ [0])).state
      = .OPEN ∧
    (execFailures optsDefault (CircuitBreaker.initial 0) ([0, 0, 0, 0] ++ [0])).nextAttempt
      = 0 + optsDefault.recoveryTimeout ∧
    CircuitBreaker.execute optsDefault
        (execFailures optsDefault (CircuitBreaker.initial 0) ([0, 0, 0, 0] ++ [0]))
        119999 true =
      (.rejectedOpen, execFailures optsDefault (CircuitBreaker.initial 0)
        ([0, 0, 0, 0] ++ [0])) := by
  have h := c6_threshold_failures_open optsDefault (CircuitBreaker.initial 0)
    [0, 0, 0, 0] 0 rfl rfl (by decide)
  exact ⟨rfl, rfl, by decide, h.1, h.2.1, h.2.2 119999 true (by decide)⟩

/-- C7: an OPEN breaker rejects every call strictly before `nextAttempt`
without invoking the operation and without changing state; any call at or
after `nextAttempt` (including exactly at `nextAttempt`) first transitions to
HALF_OPEN (admitting this call as the first half-open call) and then executes
the operation, the outcome following the operation.  Requires the configured
half-open call budget to admit at least one call. -/
theorem c7_open_respects_nextAttempt (opts : CircuitBreakerOptions)
    (cb : CircuitBreaker) (now : Nat) (b : Bool) (hst : cb.state = .OPEN)
    (hbudget : 0 < opts.halfOpenMaxCalls) :
    (now < cb.nextAttempt →
      CircuitBreaker.execute opts cb now b = (.rejectedOpen, cb)) ∧
    (cb.nextAttempt ≤ now →
      CircuitBreaker.execute opts cb now b =
        if b then
          (.success, CircuitBreaker.onSuccess opts
            { cb with state := .HALF_OPEN, halfOpenCallCount := 1 })
        else
          (.failure, CircuitBreaker.onFailure opts
            { cb with state := .HALF_OPEN, halfOpenCallCount := 1 } now)) := by
  constructor
  · intro hnow
    exact execute_open_early opts cb now b hst hnow
  · intro hnow
    have hlate : ¬ now < cb.nextAttempt := by omega
    have hcap2 : ¬ opts.halfOpenMaxCalls ≤ 0 := by omega
    simp [CircuitBreaker.execute, hst, hlate, hcap2]

/-- Witness for C7 on the tripped default breaker (`nextAttempt = 120000`):
rejected at 119999, executed at exactly 120000. -/
theorem c7_open_respects_nextAttempt_witness :
    cbTripped.state = .OPEN ∧ 0 < optsDefault.halfOpenMaxCalls ∧
    119999 < cbTripped.nextAttempt ∧
    CircuitBreaker.execute optsDefault cbTripped 119999 true =
      (.rejectedOpen, cbTripped) ∧
    cbTripped.nextAttempt ≤ 120000 ∧
    CircuitBreaker.execute optsDefault cbTripped 120000 true =
      (.success, CircuitBreaker.onSuccess optsDefault
        { cbTripped with state := .HALF_OPEN, halfOpenCallCount := 1 }) := by
  have h1 := (c7_open_respects_nextAttempt optsDefault cbTripped 119999 true
    (by decide) (by decide)).1 (by decide)
  have h2 := (c7_open_respects_nextAttempt optsDefault cbTripped 120000 true
    (by decide) (by decide)).2 (by decide)
  exact ⟨by decide, by decide, by decide, h1, by decide, by simpa using h2⟩

/-! ### BrowserPool (second unit of src/services/MetricsService.ts) -/

/-- `BrowserSession` record (lines 88-94).  The `browser` handle is external
and not modelled; the generated string id is abstracted as a `Nat`. -/
structure BrowserSession where
  id : Nat
  createdAt : Nat
  lastUsed : Nat
  isActive : Bool
deriving Repr, DecidableEq

/-- The sweep threshold hardcoded in `cleanupSessions` (line 250):
`10 * 60 * 1000` milliseconds. -/
def maxAge : Nat := 10 * 60 * 1000

/-- `cleanupSessions` (lines 248-260): iterates the registry and calls
`closeSession` on every session whose idle age `now - lastUsed` strictly
exceeds `maxAge`.  Removal by id on a duplicate-free registry is modelled as
filtering the list; the un-awaited `closeSession` is modelled as taking
effect.  JavaScript `getTime()` differences that would be negative are
truncated to 0 by `Nat` subtraction, on which side the comparison agrees. -/
def cleanupSessions (now : Nat) (sessions : List BrowserSession) :
    List BrowserSession :=
  sessions.filter (fun s => ! decide (maxAge < now - s.lastUsed))

/-- C2 (amended): the idle sweep keeps a session exactly when its idle age is
at most the fixed ten-minute `maxAge`; equivalently it closes a session
exactly when the idle age strictly exceeds `maxAge`, regardless of the
session's `isActive` flag, which the sweep never consults. -/
theorem c2_idle_sweep_strict_age_only (now : Nat) (sessions : List BrowserSession)
    (s : BrowserSession) :
    s ∈ cleanupSessions now sessions ↔ s ∈ sessions ∧ now - s.lastUsed ≤ maxAge := by
  simp [cleanupSessions, List.mem_filter, Nat.not_lt]

/-- A session marked active whose idle age exceeds ten minutes. -/
def staleActiveSession : BrowserSession :=
  ⟨1, 0, 0, true⟩

/-- C2 counterexample to the claim as stated: a session currently marked
active (`isActive = true`) whose idle age exceeds the maximum is closed by
the sweep, so the sweep does not spare active/in-use sessions. -/
theorem c2_active_session_closed_counterexample :
    staleActiveSession.isActive = true ∧
    maxAge < 600001 - staleActiveSession.lastUsed ∧
    cleanupSessions 600001 [staleActiveSession] = [] := by
  decide

/-- One `createSession` call (lines 120-189) split at its suspension point:
`check` evaluates the capacity guard of line 121 (`sessions.size >=
config.maxConcurrentSessions`, rejecting with the 429 capacity error), after
which the call awaits `puppeteer.launch`; `register` is the resumption that
executes line 155 (`sessions.set`) for a call whose launch succeeded.  The
scheduler may interleave other pool calls between the two. -/
inductive PoolAction where
  | check (c : Nat)
  | register (c : Nat)
deriving Repr, DecidableEq

/-- Pool registry state: the registry size plus the bookkeeping of which
`createSession` calls are between their guard and their registration
(`launching`), were rejected by the guard (`rejected`), or have completed
(`completed`). -/
structure PoolSt where
  size : Nat
  launching : List Nat
  rejected : List Nat
  completed : List Nat
deriving Repr, DecidableEq

/-- Small-step semantics of the pool under cooperative interleaving. -/
def poolStep (maxSessions : Nat) (st : PoolSt) : PoolAction → PoolSt
  | .check c =>
    if maxSessions ≤ st.size then
      { st with rejected := c :: st.rejected }
    else
      { st with launching := c :: st.launching }
  | .register c =>
    if c ∈ st.launching then
      { st with size := st.size + 1, launching := st.launching.erase c,
                completed := c :: st.completed }
    else
      st

/-- Run a schedule of pool actions from the empty registry. -/
def runPool (maxSessions : Nat) (acts : List PoolAction) : PoolSt :=
  acts.foldl (poolStep maxSessions) ⟨0, [], [], []⟩

/-- C3 failing run: with a ceiling of 1, two `createSession` calls whose
guards both run before either launch completes are both admitted: the final
registry holds 2 sessions, no call was rejected, and both calls completed.
The capacity guard of line 121 reads `sessions.size` before the awaited
`puppeteer.launch`, so the second call observes size 0 and passes. -/
theorem c3_concurrent_create_exceeds_ceiling :
    (runPool 1 [.check 0, .check 1, .register 0, .register 1]).size = 2 ∧
    (runPool 1 [.check 0, .check 1, .register 0, .register 1]).rejected = [] ∧
    (runPool 1 [.check 0, .check 1, .register 0, .register 1]).completed = [1, 0] := by
  decide

/-! ### MemoryManager (src/utils/MemoryManager.ts) and config (src/config.ts) -/

/-- `config.memoryWarningThreshold` default (config.ts line 81, `0.6`). -/
def memoryWarningThreshold : ℚ := 6 / 10

/-- `config.memoryCriticalThreshold` default (config.ts line 82, `0.75`). -/
def memoryCriticalThreshold : ℚ := 75 / 100

/-- The raw `process.memoryUsage()` sample consumed by `getMemoryStats`; the
`external` field of the source is named `extMem` here. -/
structure MemUsage where
  heapUsed : Nat
  heapTotal : Nat
  extMem : Nat
  rss : Nat
deriving Repr, DecidableEq

/-- `MemoryStats` (MemoryManager.ts lines 4-12). -/
structure MemoryStats where
  heapUsed : Nat
  heapTotal : Nat
  extMem : Nat
  rss : Nat
  usage : ℚ
  warning : Bool
  critical : Bool
deriving Repr, DecidableEq

/-- `getMemoryStats` (MemoryManager.ts lines 48-61): the usage ratio is
`heapUsed / heapTotal` and the flags compare it against the literals `0.8`
and `0.9` hardcoded at lines 58-59 (the configured thresholds of config.ts
are not consulted). -/
def getMemoryStats (m : MemUsage) : MemoryStats :=
  let usage : ℚ := (m.heapUsed : ℚ) / (m.heapTotal : ℚ)
  { heapUsed := m.heapUsed, heapTotal := m.heapTotal, extMem := m.extMem,
    rss := m.rss, usage := usage,
    warning := decide (8 / 10 < usage), critical := decide (9 / 10 < usage) }

/-- C8 (amended): the warning flag is true exactly when the usage ratio
strictly exceeds the fixed literal `0.8`, and the critical flag exactly when
it strictly exceeds the fixed literal `0.9`; with respect to these fixed
thresholds the classification is monotonic (critical implies warning, and a
ratio at or below `0.8` clears both flags).  The configurable
`memoryWarningThreshold`/`memoryCriticalThreshold` of config.ts play no role. -/
theorem c8_memory_flags_fixed_thresholds (m : MemUsage) :
    ((getMemoryStats m).warning = true ↔ 8 / 10 < (getMemoryStats m).usage) ∧
    ((getMemoryStats m).critical = true ↔ 9 / 10 < (getMemoryStats m).usage) ∧
    ((getMemoryStats m).critical = true → (getMemoryStats m).warning = true) ∧
    ((getMemoryStats m).usage ≤ 8 / 10 →
      (getMemoryStats m).warning = false ∧ (getMemoryStats m).critical = false) := by
  refine ⟨by simp [getMemoryStats], by simp [getMemoryStats], ?_, ?_⟩
  · intro h
    simp only [getMemoryStats, decide_eq_true_eq] at h ⊢
    linarith
  · intro h
    simp only [getMemoryStats] at h ⊢
    refine ⟨?_, ?_⟩
    · rw [decide_eq_false_iff_not]
      intro hlt
      linarith
    · rw [decide_eq_false_iff_not]
      intro hlt
      linarith

/-- Witness for C8 at a concrete sample: ratio 0.85 sets warning but not
critical; the monotonicity clauses instantiated at a ratio of 0.7. -/
theorem c8_memory_flags_fixed_thresholds_witness :
    ((getMemoryStats ⟨85, 100, 0, 0⟩).warning = true ↔
      8 / 10 < (getMemoryStats ⟨85, 100, 0, 0⟩).usage) ∧
    ((getMemoryStats ⟨85, 100, 0, 0⟩).critical = true ↔
      9 / 10 < (getMemoryStats ⟨85, 100, 0, 0⟩).usage) ∧
    ((getMemoryStats ⟨7, 10, 0, 0⟩).usage ≤ 8 / 10 ∧
     (getMemoryStats ⟨7, 10, 0, 0⟩).warning = false ∧
     (getMemoryStats ⟨7, 10, 0, 0⟩).critical = false) :=
  ⟨(c8_memory_flags_fixed_thresholds ⟨85, 100, 0, 0⟩).1,
   (c8_memory_flags_fixed_thresholds ⟨85, 100, 0, 0⟩).2.1,
   by norm_num [getMemoryStats],
   ((c8_memory_flags_fixed_thresholds ⟨7, 10, 0, 0⟩).2.2.2
     (by norm_num [getMemoryStats])).1,
   ((c8_memory_flags_fixed_thresholds ⟨7, 10, 0, 0⟩).2.2.2
     (by norm_num [getMemoryStats])).2⟩

/-- C8 counterexample to the claim as stated: a sample with usage ratio 0.7
strictly exceeds the configured warning threshold 0.6 of config.ts, yet its
warning flag is false (and 0.76 exceeds the configured critical threshold
0.75 with the critical flag false), because `getMemoryStats` compares against
the hardcoded 0.8/0.9 instead of the configuration. -/
theorem c8_configured_threshold_counterexample :
    memoryWarningThreshold < (getMemoryStats ⟨7, 10, 0, 0⟩).usage ∧
    (getMemoryStats ⟨7, 10, 0, 0⟩).warning = false ∧
    memoryCriticalThreshold < (getMemoryStats ⟨76, 100, 0, 0⟩).usage ∧
    (getMemoryStats ⟨76, 100, 0, 0⟩).critical = false := by
  refine ⟨?_, ?_, ?_, ?_⟩ <;> norm_num [getMemoryStats, memoryWarningThreshold,
    memoryCriticalThreshold]

/-! ### HealthCheckService (src/services/HealthCheckService.ts) -/

/-- Result of one individual check (HealthCheckService.ts line 14). -/
inductive CheckStatus where
  | pass
  | warn
  | fail
deriving Repr, DecidableEq

/-- Composite verdict (line 8). -/
inductive OverallStatus where
  | healthy
  | degraded
  | unhealthy
deriving Repr, DecidableEq

/-- The memory check folds into the verdict with an unguarded warn branch
(lines 37-38); it runs first, when the accumulator is still `healthy`. -/
def applyMemoryCheck (s : CheckStatus) (o : OverallStatus) : OverallStatus :=
  if s = .fail then .unhealthy
  else if s = .warn then .degraded
  else o

/-- The browser-pool, queue and external checks fold into the verdict with a
warn branch guarded by the accumulator still being `healthy` (lines 43-44,
49-50, 55-56). -/
def applyCheck (s : CheckStatus) (o : OverallStatus) : OverallStatus :=
  if s = .fail then .unhealthy
  else if s = .warn ∧ o = .healthy then .degraded
  else o

/-- `getHealthStatus` aggregation (lines 30-65) over the statuses of the
memory, browser-pool, queue and external checks, in source order. -/
def getHealthStatus (m p q e : CheckStatus) : OverallStatus :=
  applyCheck e (applyCheck q (applyCheck p (applyMemoryCheck m .healthy)))

/-- Severity of one check status as a verdict. -/
def rank : CheckStatus → OverallStatus
  | .pass => .healthy
  | .warn => .degraded
  | .fail => .unhealthy

/-- The worse of two verdicts: unhealthy dominates degraded dominates
healthy. -/
def statusMax : OverallStatus → OverallStatus → OverallStatus
  | .unhealthy, _ => .unhealthy
  | _, .unhealthy => .unhealthy
  | .degraded, _ => .degraded
  | _, .degraded => .degraded
  | .healthy, .healthy => .healthy

instance : Std.Commutative statusMax :=
  ⟨fun a b => by cases a <;> cases b <;> rfl⟩

instance : Std.Associative statusMax :=
  ⟨fun a b c => by cases a <;> cases b <;> cases c <;> rfl⟩

/-- `performReadinessCheck` (lines 235-242): ready iff the verdict is not
unhealthy (the catch-all error path is outside the model). -/
def performReadinessCheck (m p q e : CheckStatus) : Bool :=
  ! decide (getHealthStatus m p q e = .unhealthy)

/-- `performLivenessCheck` (lines 244-252): alive iff the current memory
sample is not critical. -/
def performLivenessCheck (s : MemoryStats) : Bool :=
  ! s.critical

/-- C9: the composite verdict equals the fold of `statusMax` over the
multiset of the four check severities, hence the worst of the four
independently of the order in which the checks pass, warn or fail
(`statusMax` is commutative and associative and the multiset forgets order);
readiness is true exactly when the verdict is not unhealthy, and liveness is
true exactly when the memory sample is not critical. -/
theorem c9_verdict_worst_of_four (m p q e : CheckStatus) (s : MemoryStats) :
    getHealthStatus m p q e =
      Multiset.fold statusMax .healthy {rank m, rank p, rank q, rank e} ∧
    (performReadinessCheck m p q e = true ↔ getHealthStatus m p q e ≠ .unhealthy) ∧
    (performLivenessCheck s = true ↔ s.critical = false) := by
  refine ⟨?_, ?_, ?_⟩
  · cases m <;> cases p <;> cases q <;> cases e <;> rfl
  · simp [performReadinessCheck]
  · simp [performLivenessCheck]

/-! ### LoadBalancer (backend registry, selection, dispatch, probes) -/

/-- `BrowserlessInstance` record (LoadBalancer lines 5-17).  The string
fields `url`/`token`/`domain` are connection configuration with no role in
selection or health accounting and are omitted; the string id is abstracted
as a `Nat`; `lastHealthCheck` is a millisecond timestamp. -/
structure BrowserlessInstance where
  id : Nat
  isHealthy : Bool
  currentLoad : Nat
  maxLoad : Nat
  lastHealthCheck : Nat
  responseTime : Nat
  errorCount : Nat
  successCount : Nat
deriving Repr, DecidableEq

/-- The four selection strategies (LoadBalancer line 23). -/
inductive Strategy where
  | round_robin
  | least_connections
  | weighted
  | health_based
deriving Repr, DecidableEq

/-- The selection failure thrown at LoadBalancer line 111. -/
inductive LBError where
  | noHealthyInstance
deriving Repr, DecidableEq

/-- `isInstanceAvailable` (lines 127-134).  The per-instance breaker registry
is modelled as the total map `bstate` from instance id to breaker state
(every registered instance is paired with a breaker by `addInstance`). -/
def isInstanceAvailable (bstate : Nat → CircuitBreakerState)
    (i : BrowserlessInstance) : Bool :=
  i.isHealthy && decide (i.currentLoad < i.maxLoad) &&
    ! decide (bstate i.id = .OPEN)

/-- `getRoundRobinInstance` (lines 136-143) on the nonempty eligible list
`hd :: tl`, at cursor position `rrIdx`; the post-increment of the cursor does
not affect which instance this call returns. -/
def getRoundRobinInstance (rrIdx : Nat) (hd : BrowserlessInstance)
    (tl : List BrowserlessInstance) : BrowserlessInstance :=
  (hd :: tl).get ⟨rrIdx % (hd :: tl).length, Nat.mod_lt _ (Nat.succ_pos _)⟩

/-- `getLeastConnectionsInstance` (lines 145-149): `Array.reduce` keeping the
earliest instance of strictly smallest `currentLoad`. -/
def getLeastConnectionsInstance (hd : BrowserlessInstance)
    (tl : List BrowserlessInstance) : BrowserlessInstance :=
  tl.foldl (fun least cur =>
    if cur.currentLoad < least.currentLoad then cur else least) hd

/-- The weight of one instance (lines 157-161): spare-capacity ratio times
inverse response time (1 when no response time is recorded). -/
def instanceWeight (i : BrowserlessInstance) : ℚ :=
  (((i.maxLoad : ℚ) - (i.currentLoad : ℚ)) / (i.maxLoad : ℚ)) *
    (if 0 < i.responseTime then 1000 / (i.responseTime : ℚ) else 1)

/-- The accumulation loop of lines 169-179: walk the instances accumulating
weights and return the first whose cumulative weight reaches the drawn
value. -/
def pickWeighted (rand : ℚ) : ℚ → List BrowserlessInstance →
    Option BrowserlessInstance
  | _, [] => none
  | acc, i :: rest =>
    if rand ≤ acc + instanceWeight i then some i
    else pickWeighted rand (acc + instanceWeight i) rest

/-- `getWeightedInstance` (lines 151-182).  `rand` is the oracle for
`Math.random() * totalWeight`; on zero total weight the first eligible
instance is returned, and the `instances[0]` fallback of line 181 backs the
loop. -/
def getWeightedInstance (rand : ℚ) (hd : BrowserlessInstance)
    (tl : List BrowserlessInstance) : BrowserlessInstance :=
  let totalWeight := ((hd :: tl).map instanceWeight).sum
  if totalWeight = 0 then hd
  else (pickWeighted rand 0 (hd :: tl)).getD hd

/-- The health-based score of one instance (lines 190-198):
`0.4·health + 0.3·spare-capacity + 0.2·success-ratio + 0.1·responsiveness`. -/
def instanceScore (i : BrowserlessInstance) : ℚ :=
  (if i.isHealthy then 1 else 0) * (4 / 10) +
  (((i.maxLoad : ℚ) - (i.currentLoad : ℚ)) / (i.maxLoad : ℚ)) * (3 / 10) +
  ((i.successCount : ℚ) / ((max (i.successCount + i.errorCount) 1 : Nat) : ℚ))
    * (2 / 10) +
  (if 0 < i.responseTime then min (1000 / (i.responseTime : ℚ)) 1 else 1)
    * (1 / 10)

/-- `getHealthBasedInstance` (lines 184-208): score every eligible instance,
sort by descending score and take the front. -/
def getHealthBasedInstance (hd : BrowserlessInstance)
    (tl : List BrowserlessInstance) : BrowserlessInstance :=
  let scored := (hd :: tl).map (fun i => (i, instanceScore i))
  let sorted := scored.mergeSort (fun a b => decide (b.2 ≤ a.2))
  (sorted.head?.getD (hd, instanceScore hd)).1

/-- `getAvailableInstance` (lines 105-125): filter the registry by the
availability predicate, fail when nothing is eligible, otherwise dispatch on
the configured strategy. -/
def getAvailableInstance (strategy : Strategy)
    (bstate : Nat → CircuitBreakerState) (insts : List BrowserlessInstance)
    (rrIdx : Nat) (rand : ℚ) : Except LBError BrowserlessInstance :=
  match insts.filter (isInstanceAvailable bstate) with
  | [] => .error .noHealthyInstance
  | hd :: tl =>
    .ok (match strategy with
      | .round_robin => getRoundRobinInstance rrIdx hd tl
      | .least_connections => getLeastConnectionsInstance hd tl
      | .weighted => getWeightedInstance rand hd tl
      | .health_based => getHealthBasedInstance hd tl)

lemma getRoundRobinInstance_mem (rrIdx : Nat) (hd : BrowserlessInstance)
    (tl : List BrowserlessInstance) :
    getRoundRobinInstance rrIdx hd tl ∈ hd :: tl := by
  exact List.get_mem _ _ _

lemma getLeastConnectionsInstance_mem :
    ∀ (tl : List BrowserlessInstance) (hd : BrowserlessInstance),
      getLeastConnectionsInstance hd tl ∈ hd :: tl := by
  intro tl
  induction tl with
  | nil => intro hd; simp [getLeastConnectionsInstance]
  | cons x xs ih =>
    intro hd
    simp only [getLeastConnectionsInstance, List.foldl_cons]
    have hrec := ih (if x.currentLoad < hd.currentLoad then x else hd)
    simp only [getLeastConnectionsInstance] at hrec
    rcases List.mem_cons.mp hrec with heq | hmem
    · rw [heq]
      by_cases hc : x.currentLoad < hd.currentLoad <;> simp [hc]
    · simp [hmem]

lemma pickWeighted_mem :
    ∀ (l : List BrowserlessInstance) (acc rand : ℚ) (i : BrowserlessInstance),
      pickWeighted rand acc l = some i → i ∈ l := by
  intro l
  induction l with
  | nil => intro acc rand i h; simp [pickWeighted] at h
  | cons x xs ih =>
    intro acc rand i h
    simp only [pickWeighted] at h
    split at h
    · simp_all
    · exact List.mem_cons_of_mem _ (ih _ _ _ h)

lemma getWeightedInstance_mem (rand : ℚ) (hd : BrowserlessInstance)
    (tl : List BrowserlessInstance) :
    getWeightedInstance rand hd tl ∈ hd :: tl := by
  unfold getWeightedInstance
  show (if ((hd :: tl).map instanceWeight).sum = 0 then hd
        else (pickWeighted rand 0 (hd :: tl)).getD hd) ∈ hd :: tl
  split
  · exact List.mem_cons_self hd tl
  · cases hpick : pickWeighted rand 0 (hd :: tl) with
    | none => exact List.mem_cons_self hd tl
    | some i => exact pickWeighted_mem _ _ _ _ hpick

lemma getHealthBasedInstance_mem (hd : BrowserlessInstance)
    (tl : List BrowserlessInstance) :
    getHealthBasedInstance hd tl ∈ hd :: tl := by
  unfold getHealthBasedInstance
  cases hs : ((hd :: tl).map (fun i => (i, instanceScore i))).mergeSort
      (fun a b => decide (b.2 ≤ a.2)) with
  | nil =>
    exfalso
    have hperm := List.mergeSort_perm
      ((hd :: tl).map (fun i => (i, instanceScore i))) (fun a b => decide (b.2 ≤ a.2))
    rw [hs] at hperm
    have := hperm.symm.eq_nil
    simp at this
  | cons a rest =>
    have ha : a ∈ ((hd :: tl).map (fun i => (i, instanceScore i))).mergeSort
        (fun a b => decide (b.2 ≤ a.2)) := by
      rw [hs]; exact List.mem_cons_self a rest
    rw [List.mem_mergeSort] at ha
    rcases List.mem_map.mp ha with ⟨i, hi, hpair⟩
    simp only [hs, List.head?_cons, Option.getD_some]
    rw [← hpair]
    exact hi

/-- Any `.ok` result of selection is a registered instance satisfying the
availability predicate; the `.error` result occurs exactly when the eligible
set is empty. -/
lemma getAvailableInstance_spec (strategy : Strategy)
    (bstate : Nat → CircuitBreakerState) (insts : List BrowserlessInstance)
    (rrIdx : Nat) (rand : ℚ) :
    (getAvailableInstance strategy bstate insts rrIdx rand =
        .error .noHealthyInstance ↔
      insts.filter (isInstanceAvailable bstate) = []) ∧
    ∀ i, getAvailableInstance strategy bstate insts rrIdx rand = .ok i →
      i ∈ insts ∧ isInstanceAvailable bstate i = true := by
  unfold getAvailableInstance
  cases hfil : insts.filter (isInstanceAvailable bstate) with
  | nil => simp
  | cons hd tl =>
    simp only [reduceCtorEq, false_iff]
    constructor
    · simp
    · intro i hi
      have hmem : i ∈ hd :: tl := by
        cases strategy with
        | round_robin =>
          simp only [Except.ok.injEq] at hi
          rw [← hi]; exact getRoundRobinInstance_mem rrIdx hd tl
        | least_connections =>
          simp only [Except.ok.injEq] at hi
          rw [← hi]; exact getLeastConnectionsInstance_mem tl hd
        | weighted =>
          simp only [Except.ok.injEq] at hi
          rw [← hi]; exact getWeightedInstance_mem rand hd tl
        | health_based =>
          simp only [Except.ok.injEq] at hi
          rw [← hi]; exact getHealthBasedInstance_mem hd tl
      rw [← hfil] at hmem
      exact ⟨(List.mem_filter.mp hmem).1, (List.mem_filter.mp hmem).2⟩

/-- C4: selection never returns an ineligible backend: every selected
instance is registered, healthy, strictly below its load ceiling, and has a
breaker not in OPEN; selection yields some instance exactly when at least one
eligible backend exists, and fails with the no-healthy-backend error exactly
when the eligible set is empty — for every strategy, cursor position and
random draw. -/
theorem c4_selection_sound_and_complete (strategy : Strategy)
    (bstate : Nat → CircuitBreakerState) (insts : List BrowserlessInstance)
    (rrIdx : Nat) (rand : ℚ) :
    (getAvailableInstance strategy bstate insts rrIdx rand =
        .error .noHealthyInstance ↔
      insts.filter (isInstanceAvailable bstate) = []) ∧
    ((∃ i, getAvailableInstance strategy bstate insts rrIdx rand = .ok i) ↔
      insts.filter (isInstanceAvailable bstate) ≠ []) ∧
    ∀ i, getAvailableInstance strategy bstate insts rrIdx rand = .ok i →
      i ∈ insts ∧ i.isHealthy = true ∧ i.currentLoad < i.maxLoad ∧
        bstate i.id ≠ .OPEN := by
  have hspec := getAvailableInstance_spec strategy bstate insts rrIdx rand
  refine ⟨hspec.1, ?_, ?_⟩
  · constructor
    · rintro ⟨i, hi⟩ hnil
      rw [hspec.1.mpr hnil] at hi
      exact absurd hi (by simp)
    · intro hne
      cases hsel : getAvailableInstance strategy bstate insts rrIdx rand with
      | error err =>
        cases err
        exact absurd (hspec.1.mp hsel) hne
      | ok i => exact ⟨i, rfl⟩
  · intro i hi
    have h := hspec.2 i hi
    have havail := h.2
    simp only [isInstanceAvailable, Bool.and_eq_true, decide_eq_true_eq,
      Bool.not_eq_true', decide_eq_false_iff_not] at havail
    exact ⟨h.1, havail.1.1, havail.1.2, havail.2⟩

/-- Witness for C4: a two-backend registry where only instance 1 is eligible
(instance 0 is unhealthy); health-based selection returns instance 1, and an
all-ineligible registry fails with the no-healthy-backend error. -/
theorem c4_selection_sound_and_complete_witness :
    (getAvailableInstance .health_based (fun _ => .CLOSED)
        [⟨0, false, 0, 10, 0, 0, 0, 0⟩, ⟨1, true, 0, 10, 0, 0, 0, 0⟩] 0 0 =
      .ok ⟨1, true, 0, 10, 0, 0, 0, 0⟩) ∧
    ((⟨1, true, 0, 10, 0, 0, 0, 0⟩ : BrowserlessInstance) ∈
        [(⟨0, false, 0, 10, 0, 0, 0, 0⟩ : BrowserlessInstance),
         ⟨1, true, 0, 10, 0, 0, 0, 0⟩] ∧
      (⟨1, true, 0, 10, 0, 0, 0, 0⟩ : BrowserlessInstance).isHealthy = true ∧
      (⟨1, true, 0, 10, 0, 0, 0, 0⟩ : BrowserlessInstance).currentLoad <
        (⟨1, true, 0, 10, 0, 0, 0, 0⟩ : BrowserlessInstance).maxLoad ∧
      (fun (_ : Nat) => CircuitBreakerState.CLOSED)
          (⟨1, true, 0, 10, 0, 0, 0, 0⟩ : BrowserlessInstance).id ≠ .OPEN) ∧
    getAvailableInstance .round_robin (fun _ => .OPEN)
        [⟨0, true, 0, 10, 0, 0, 0, 0⟩] 0 0 = .error .noHealthyInstance := by
  have hok : getAvailableInstance .health_based (fun _ => .CLOSED)
      [⟨0, false, 0, 10, 0, 0, 0, 0⟩, ⟨1, true, 0, 10, 0, 0, 0, 0⟩] 0 0 =
      .ok ⟨1, true, 0, 10, 0, 0, 0, 0⟩ := by
    simp [getAvailableInstance, isInstanceAvailable, getHealthBasedInstance,
      List.mergeSort_singleton]
  refine ⟨hok, ?_, ?_⟩
  · exact (c4_selection_sound_and_complete .health_based (fun _ => .CLOSED)
      [⟨0, false, 0, 10, 0, 0, 0, 0⟩, ⟨1, true, 0, 10, 0, 0, 0, 0⟩] 0 0).2.2 _ hok
  · exact (c4_selection_sound_and_complete .round_robin (fun _ => .OPEN)
      [⟨0, true, 0, 10, 0, 0, 0, 0⟩] 0 0).1.mpr (by decide)

/-- `executeWithInstance` (lines 210-232) restricted to the already selected
instance and its breaker: bump `currentLoad`, run the operation through the
breaker, on success bump `successCount` and record the latency `dur`, on any
thrown error (operation failure or breaker rejection) bump `errorCount`, and
decrement `currentLoad` in the `finally` block on every path.  Returns the
updated instance, the updated breaker, and the call outcome. -/
def executeWithInstance (opts : CircuitBreakerOptions) (cb : CircuitBreaker)
    (inst : BrowserlessInstance) (now dur : Nat) (opSucceeds : Bool) :
    BrowserlessInstance × CircuitBreaker × ExecResult :=
  let inst1 := { inst with currentLoad := inst.currentLoad + 1 }
  let r := CircuitBreaker.execute opts cb now opSucceeds
  let inst2 :=
    match r.1 with
    | .success =>
      { inst1 with successCount := inst1.successCount + 1, responseTime := dur }
    | _ => { inst1 with errorCount := inst1.errorCount + 1 }
  ({ inst2 with currentLoad := inst2.currentLoad - 1 }, r.2, r.1)

/-- C5: after every dispatch through `executeWithInstance` the backend's
`currentLoad` equals its pre-dispatch value — for every breaker state and
operation outcome, hence on operation success, operation failure, and
circuit-breaker rejection alike. -/
theorem c5_dispatch_restores_load (opts : CircuitBreakerOptions)
    (cb : CircuitBreaker) (inst : BrowserlessInstance) (now dur : Nat)
    (opSucceeds : Bool) :
    (executeWithInstance opts cb inst now dur opSucceeds).1.currentLoad =
      inst.currentLoad := by
  unfold executeWithInstance
  cases h : (CircuitBreaker.execute opts cb now opSucceeds).1 <;> simp [h]

/-- Witness for C5 exercising all three outcomes on concrete states: success
and failure on a CLOSED breaker, and rejection on the tripped OPEN breaker. -/
theorem c5_dispatch_restores_load_witness :
    (executeWithInstance optsDefault (CircuitBreaker.initial 0)
        ⟨0, true, 4, 10, 0, 0, 0, 0⟩ 5 7 true).1.currentLoad = 4 ∧
    (executeWithInstance optsDefault (CircuitBreaker.initial 0)
        ⟨0, true, 4, 10, 0, 0, 0, 0⟩ 5 7 false).1.currentLoad = 4 ∧
    (executeWithInstance optsDefault cbTripped
        ⟨0, true, 4, 10, 0, 0, 0, 0⟩ 5 7 true).2.2 = .rejectedOpen ∧
    (executeWithInstance optsDefault cbTripped
        ⟨0, true, 4, 10, 0, 0, 0, 0⟩ 5 7 true).1.currentLoad = 4 :=
  ⟨c5_dispatch_restores_load optsDefault (CircuitBreaker.initial 0)
      ⟨0, true, 4, 10, 0, 0, 0, 0⟩ 5 7 true,
   c5_dispatch_restores_load optsDefault (CircuitBreaker.initial 0)
      ⟨0, true, 4, 10, 0, 0, 0, 0⟩ 5 7 false,
   by decide,
   c5_dispatch_restores_load optsDefault cbTripped
      ⟨0, true, 4, 10, 0, 0, 0, 0⟩ 5 7 true⟩

/-- The cumulative error ratio used by the simulated probe (line 277):
`errorCount / Math.max(successCount + errorCount, 1)`. -/
def errorRate (i : BrowserlessInstance) : ℚ :=
  (i.errorCount : ℚ) / ((max (i.successCount + i.errorCount) 1 : Nat) : ℚ)

/-- `pingInstance` (lines 272-281): healthy exactly when the cumulative error
ratio is strictly below `0.2`. -/
def pingInstance (i : BrowserlessInstance) : Bool :=
  decide (errorRate i < 2 / 10)

/-- The success path of `checkInstanceHealth` (lines 249-264): store the ping
verdict in `isHealthy` and stamp `lastHealthCheck`/`responseTime`; the
counters are untouched. -/
def checkInstanceHealthOk (now rt : Nat) (i : BrowserlessInstance) :
    BrowserlessInstance :=
  { i with isHealthy := pingInstance i, lastHealthCheck := now,
           responseTime := rt }

/-- The catch path of `checkInstanceHealth` (lines 265-269): mark unhealthy
and bump the error counter. -/
def checkInstanceHealthErr (i : BrowserlessInstance) : BrowserlessInstance :=
  { i with isHealthy := false, errorCount := i.errorCount + 1 }

/-- One observable step of the LoadBalancer on its instance registry: a
health probe of instance `iid` that resolves (`probeOk`, with its timestamp
and measured latency), a probe that throws (`probeErr`), or one dispatch
through `executeWithInstance` with all its oracles (strategy, breaker
registry snapshot, breaker of the selected instance, round-robin cursor,
random draw, clock, latency, operation outcome). -/
inductive LBStep where
  | probeOk (iid now rt : Nat)
  | probeErr (iid : Nat)
  | dispatch (strategy : Strategy) (bstate : Nat → CircuitBreakerState)
      (opts : CircuitBreakerOptions) (cb : CircuitBreaker)
      (rrIdx : Nat) (rand : ℚ) (now dur : Nat) (opSucceeds : Bool)

/-- Effect of one step on the registry.  A dispatch first selects via
`getAvailableInstance` and, when selection succeeds, applies the
`executeWithInstance` update to the selected instance (registered ids are
unique, so the id-guarded map touches exactly the selected record); a failed
selection leaves the registry unchanged. -/
def lbStep (insts : List BrowserlessInstance) : LBStep → List BrowserlessInstance
  | .probeOk iid now rt =>
    insts.map (fun j => if j.id = iid then checkInstanceHealthOk now rt j else j)
  | .probeErr iid =>
    insts.map (fun j => if j.id = iid then checkInstanceHealthErr j else j)
  | .dispatch strategy bstate opts cb rrIdx rand now dur opSucceeds =>
    match getAvailableInstance strategy bstate insts rrIdx rand with
    | .error _ => insts
    | .ok sel =>
      insts.map (fun j => if j.id = sel.id then
        (executeWithInstance opts cb j now dur opSucceeds).1 else j)

/-- Run a sequence of LoadBalancer steps on the registry. -/
def runLB (insts : List BrowserlessInstance) (steps : List LBStep) :
    List BrowserlessInstance :=
  steps.foldl lbStep insts

/-- An instance at or above the `0.2` cumulative error cutoff whose health
flag is down. -/
def quarantined (i : BrowserlessInstance) : Prop :=
  2 / 10 ≤ errorRate i ∧ i.isHealthy = false

lemma executeWithInstance_id (opts : CircuitBreakerOptions) (cb : CircuitBreaker)
    (j : BrowserlessInstance) (now dur : Nat) (opSucceeds : Bool) :
    (executeWithInstance opts cb j now dur opSucceeds).1.id = j.id := by
  unfold executeWithInstance
  cases h : (CircuitBreaker.execute opts cb now opSucceeds).1 <;> simp [h]

lemma pingInstance_false_of_quarantined (i : BrowserlessInstance)
    (h : 2 / 10 ≤ errorRate i) : pingInstance i = false := by
  simp only [pingInstance, decide_eq_false_iff_not, not_lt]
  exact h

lemma errorRate_checkInstanceHealthErr (i : BrowserlessInstance)
    (h : 2 / 10 ≤ errorRate i) :
    2 / 10 ≤ errorRate (checkInstanceHealthErr i) := by
  unfold errorRate checkInstanceHealthErr at *
  simp only at h ⊢
  have hD1 : (1 : ℚ) ≤ ((max (i.successCount + i.errorCount) 1 : Nat) : ℚ) := by
    exact_mod_cast Nat.le_max_right (i.successCount + i.errorCount) 1
  have hDpos : (0 : ℚ) < ((max (i.successCount + i.errorCount) 1 : Nat) : ℚ) := by
    linarith
  have hD2pos : (0 : ℚ) <
      ((max (i.successCount + (i.errorCount + 1)) 1 : Nat) : ℚ) := by
    have : (1 : ℚ) ≤ ((max (i.successCount + (i.errorCount + 1)) 1 : Nat) : ℚ) := by
      exact_mod_cast Nat.le_max_right (i.successCount + (i.errorCount + 1)) 1
    linarith
  have hstep : ((max (i.successCount + (i.errorCount + 1)) 1 : Nat) : ℚ) ≤
      ((max (i.successCount + i.errorCount) 1 : Nat) : ℚ) + 1 := by
    have : max (i.successCount + (i.errorCount + 1)) 1 ≤
        max (i.successCount + i.errorCount) 1 + 1 := by omega
    exact_mod_cast this
  rw [le_div_iff₀ hDpos] at h
  rw [le_div_iff₀ hD2pos, Nat.cast_add, Nat.cast_one]
  have hmul : 2 / 10 * ((max (i.successCount + (i.errorCount + 1)) 1 : Nat) : ℚ) ≤
      2 / 10 * (((max (i.successCount + i.errorCount) 1 : Nat) : ℚ) + 1) :=
    mul_le_mul_of_nonneg_left hstep (by norm_num)
  linarith

/-- Every step leaves the sequence of registered ids unchanged. -/
lemma lbStep_map_id (insts : List BrowserlessInstance) (s : LBStep) :
    (lbStep insts s).map (·.id) = insts.map (·.id) := by
  cases s with
  | probeOk iid now rt =>
    rw [lbStep, List.map_map]
    apply List.map_congr_left
    intro j _
    by_cases h : j.id = iid <;> simp [h, checkInstanceHealthOk]
  | probeErr iid =>
    rw [lbStep, List.map_map]
    apply List.map_congr_left
    intro j _
    by_cases h : j.id = iid <;> simp [h, checkInstanceHealthErr]
  | dispatch strategy bstate opts cb rrIdx rand now dur opSucceeds =>
    rw [lbStep]
    cases hsel : getAvailableInstance strategy bstate insts rrIdx rand with
    | error e => rfl
    | ok sel =>
      rw [List.map_map]
      apply List.map_congr_left
      intro j _
      by_cases h : j.id = sel.id <;>
        simp [h, executeWithInstance_id opts cb j now dur opSucceeds]

/-- One step preserves quarantine: the record with the quarantined id is
still present, still flagged unhealthy, and still at or above the error
cutoff.  Probes recompute health from the unchanged cumulative counters (the
failing probe even raises the ratio), and a dispatch can only select a
backend whose health flag is up, never the quarantined one. -/
lemma lbStep_preserves_quarantine (insts : List BrowserlessInstance) (s : LBStep)
    (hnd : (insts.map (·.id)).Nodup) (j : BrowserlessInstance)
    (hj : j ∈ insts) (hq : quarantined j) :
    ∃ j2 ∈ lbStep insts s, j2.id = j.id ∧ quarantined j2 := by
  cases s with
  | probeOk iid now rt =>
    refine ⟨_, List.mem_map_of_mem
      (fun j => if j.id = iid then checkInstanceHealthOk now rt j else j) hj, ?_, ?_⟩
    · by_cases h : j.id = iid <;> simp [h, checkInstanceHealthOk]
    · by_cases h : j.id = iid
      · simp only [h, if_pos rfl]
        refine ⟨hq.1, ?_⟩
        simp [checkInstanceHealthOk, pingInstance_false_of_quarantined j hq.1]
      · simpa [h] using hq
  | probeErr iid =>
    refine ⟨_, List.mem_map_of_mem
      (fun j => if j.id = iid then checkInstanceHealthErr j else j) hj, ?_, ?_⟩
    · by_cases h : j.id = iid <;> simp [h, checkInstanceHealthErr]
    · by_cases h : j.id = iid
      · simp only [h, if_pos rfl]
        exact ⟨errorRate_checkInstanceHealthErr j hq.1, rfl⟩
      · simpa [h] using hq
  | dispatch strategy bstate opts cb rrIdx rand now dur opSucceeds =>
    rw [lbStep]
    cases hsel : getAvailableInstance strategy bstate insts rrIdx rand with
    | error e => exact ⟨j, hj, rfl, hq⟩
    | ok sel =>
      have hspec := (getAvailableInstance_spec strategy bstate insts rrIdx rand).2
        sel hsel
      have hselhealthy : sel.isHealthy = true := by
        have := hspec.2
        simp only [isInstanceAvailable, Bool.and_eq_true] at this
        exact this.1.1
      have hne : ¬ j.id = sel.id := by
        intro heq
        have hjs := List.inj_on_of_nodup_map hnd hj hspec.1 heq
        have hfalse := hq.2
        rw [hjs, hselhealthy] at hfalse
        simp at hfalse
      refine ⟨_, List.mem_map_of_mem (fun k => if k.id = sel.id then
        (executeWithInstance opts cb k now dur opSucceeds).1 else k) hj, ?_, ?_⟩
      · simp [hne]
      · simpa [hne] using hq

/-- C10: quarantine is permanent.  If the registered ids are duplicate-free
and some registered backend has cumulative error ratio at least the `0.2`
cutoff with its health flag down — the situation a failed probe produces —
then after any sequence of probes and dispatches the registry still contains
a backend with that id whose health flag is down and whose error ratio is
still at least the cutoff: no reachable step revives it, because probes
recompute health from the same counters, a failing probe only raises the
ratio, and dispatch never selects an unhealthy backend. -/
theorem c10_quarantine_permanent (insts : List BrowserlessInstance)
    (steps : List LBStep) (hnd : (insts.map (·.id)).Nodup)
    (j : BrowserlessInstance) (hj : j ∈ insts) (hq : quarantined j) :
    ∃ j2 ∈ runLB insts steps, j2.id = j.id ∧ j2.isHealthy = false ∧
      2 / 10 ≤ errorRate j2 := by
  induction steps generalizing insts j with
  | nil => exact ⟨j, hj, rfl, hq.2, hq.1⟩
  | cons s ss ih =>
    obtain ⟨j2, hj2mem, hj2id, hj2q⟩ := lbStep_preserves_quarantine insts s hnd j hj hq
    have hnd2 : ((lbStep insts s).map (·.id)).Nodup := by
      rw [lbStep_map_id]; exact hnd
    obtain ⟨j3, hm, hid, hh, hr⟩ := ih (lbStep insts s) hnd2 j2 hj2mem hj2q
    exact ⟨j3, by simpa [runLB] using hm, hid.trans hj2id, hh, hr⟩

/-- A one-backend registry whose only backend has been marked unhealthy with
error ratio 1. -/
def lbDemoInstances : List BrowserlessInstance :=
  [⟨0, false, 0, 10, 0, 0, 1, 0⟩]

/-- A mixed demonstration schedule: a resolving probe, one dispatch attempt,
a failing probe. -/
def lbDemoSteps : List LBStep :=
  [.probeOk 0 100 5,
   .dispatch .health_based (fun _ => .CLOSED) optsDefault
     (CircuitBreaker.initial 0) 0 0 200 3 true,
   .probeErr 0]

/-- Witness for C10 on the concrete one-backend registry and the mixed
schedule. -/
theorem c10_quarantine_permanent_witness :
    (lbDemoInstances.map (·.id)).Nodup ∧
    (⟨0, false, 0, 10, 0, 0, 1, 0⟩ : BrowserlessInstance) ∈ lbDemoInstances ∧
    quarantined ⟨0, false, 0, 10, 0, 0, 1, 0⟩ ∧
    ∃ j2 ∈ runLB lbDemoInstances lbDemoSteps,
      j2.id = 0 ∧ j2.isHealthy = false ∧ 2 / 10 ≤ errorRate j2 := by
  have hq : quarantined (⟨0, false, 0, 10, 0, 0, 1, 0⟩ : BrowserlessInstance) := by
    refine ⟨?_, rfl⟩
    norm_num [errorRate]
  refine ⟨by decide, by simp [lbDemoInstances], hq, ?_⟩
  exact c10_quarantine_permanent lbDemoInstances lbDemoSteps (by decide)
    ⟨0, false, 0, 10, 0, 0, 1, 0⟩ (by simp [lbDemoInstances]) hq

end Browserless
